import Mathlib

/-!
Shallow embedding of the tagging_and_lyrics integration (lyrics.py and
tagging.py) and proofs about its specified behaviour.  Instants and
positions are rational numbers of seconds; text is modelled by Lean
strings and character lists.
-/

namespace TagLyrics

/-- Floor of a rational number, computed from the reduced fraction so that
it evaluates in the kernel. -/
def pyFloor (q : ℚ) : ℤ := q.num.fdiv q.den

/-- Truncation toward zero, the behaviour of the Python int() conversion
applied to a number. -/
def pyTrunc (q : ℚ) : ℤ := q.num.tdiv q.den

/-- The Python built-in round applied to a number, to zero decimal places:
round half to even. -/
def pyRound (q : ℚ) : ℤ :=
  if q - pyFloor q < 1 / 2 then pyFloor q
  else if 1 / 2 < q - pyFloor q then pyFloor q + 1
  else if pyFloor q % 2 = 0 then pyFloor q else pyFloor q + 1

/-- round(x, 2) as used by calculate_media_timecode: round to two decimal
places, half to even. -/
def round2 (q : ℚ) : ℚ := (pyRound (q * 100) : ℚ) / 100

/-- The updated argument of calculate_media_timecode: either a datetime
value or a string still to be parsed, mirroring the isinstance branch of
the source. -/
inductive UpdatedAt
  | dt (t : ℚ)
  | str (s : String)

/-- calculate_media_timecode(pos, updated) from lyrics.py.  Returns 0 when
either argument is missing; a string updated value is parsed with
datetime.datetime.fromisoformat, passed in here as the function fromiso
which returns none exactly when the library raises ValueError, in which
case the source logs an error and returns 0; otherwise the result is
round(pos + (now - updated), 2).  The current instant now is passed
explicitly in place of datetime.datetime.now. -/
def calculate_media_timecode (fromiso : String → Option ℚ)
    (pos : Option ℚ) (updated : Option UpdatedAt) (now : ℚ) : ℚ :=
  match pos, updated with
  | none, _ => 0
  | some _, none => 0
  | some p, some (UpdatedAt.dt t) => round2 (p + (now - t))
  | some p, some (UpdatedAt.str s) =>
    match fromiso s with
    | none => 0
    | some t => round2 (p + (now - t))

/-- FINETUNE_SYNC from tagging.py. -/
def FINETUNE_SYNC : ℚ := 2

/-- From handle_successful_match in tagging.py: the synthetic observed-at
instant handed to the lyrics lookup, the current instant minus
FINETUNE_SYNC seconds. -/
def process_begin (now : ℚ) : ℚ := now - FINETUNE_SYNC

/-- ENABLE_LYRICS_LOOKUP from tagging.py. -/
def ENABLE_LYRICS_LOOKUP : Bool := true

/-- Observable events of the lyrics handoff performed by
handle_successful_match.  A coroutine-created event records that the
expression fetch_lyrics_for_track(...) was evaluated inside a synchronous
function, which in Python only constructs a coroutine object carrying the
given pos and updated_at arguments; session-loop-entered would record the
body of fetch_lyrics_for_track beginning to execute; type-error-raised
records the TypeError from awaiting a value that is not awaitable. -/
inductive HandoffEvent
  | coroutineCreated (pos : ℚ) (updated_at : ℚ)
  | sessionLoopEntered
  | typeErrorRaised
deriving DecidableEq

/-- trigger_lyrics_lookup from lyrics.py, a synchronous function.  It
returns early when title or artist is empty; otherwise the call
fetch_lyrics_for_track(hass, title, artist, play_offset_ms/1000,
process_begin, media_player, True), written without await and without any
task scheduling inside this synchronous function, only creates a
coroutine object carrying those arguments; the object is discarded when
the function returns, so its body never executes and no
session-loop-entered event is ever emitted.  On every path the function
itself returns Python None; the event list is what it emits. -/
def trigger_lyrics_lookup (title artist : String) (play_offset_ms : ℤ)
    (pb : ℚ) : List HandoffEvent :=
  if title = "" ∨ artist = "" then []
  else [HandoffEvent.coroutineCreated ((play_offset_ms : ℚ) / 1000) pb]

/-- The lyrics handoff of handle_successful_match in tagging.py: when
ENABLE_LYRICS_LOOKUP and include_lyrics are set and title and artist are
non-empty, it computes process_begin and evaluates
await trigger_lyrics_lookup(...).  The synchronous trigger_lyrics_lookup
returns None, and awaiting None raises TypeError, which propagates to the
except handler of listen_for_audio (the postOk-false case of its trace
model).  Returns the emitted events and whether the handoff completed
without raising. -/
def tagging_handoff (include_lyrics : Bool) (title artist : String)
    (play_offset_ms : ℤ) (now : ℚ) : List HandoffEvent × Bool :=
  if ENABLE_LYRICS_LOOKUP && include_lyrics then
    if title ≠ "" ∧ artist ≠ "" then
      (trigger_lyrics_lookup title artist play_offset_ms (process_begin now)
        ++ [HandoffEvent.typeErrorRaised], false)
    else ([], true)
  else ([], true)

/-- Decimal value of a digit character. -/
def digitVal (c : Char) : ℕ := c.toNat - 48

/-- Value of a decimal digit string, most significant digit first. -/
def digitsVal (l : List Char) : ℕ := l.foldl (fun a c => 10 * a + digitVal c) 0

/-- Split a character list at every occurrence of the separator, the
behaviour of Python str.split with a one-character separator. -/
def splitChar (sep : Char) : List Char → List (List Char)
  | [] => [[]]
  | c :: cs =>
    match splitChar sep cs with
    | [] => [[]]
    | p :: ps => if c = sep then [] :: p :: ps else (c :: p) :: ps

/-- Model of the Python int() conversion restricted to plain decimal digit
strings.  The sign, whitespace and underscore forms accepted by Python
never occur in the bracketed timestamps handled here; every other input
raises ValueError, modelled as none. -/
def pyInt (l : List Char) : Option ℤ :=
  if l ≠ [] ∧ l.all Char.isDigit then some (digitsVal l : ℤ) else none

/-- Model of the Python float() conversion restricted to plain decimal
forms with an optional dot, the only forms occurring in the timestamps
handled here.  The numeric value is kept exact as a rational. -/
def pyFloat (l : List Char) : Option ℚ :=
  match splitChar '.' l with
  | [d] => if d ≠ [] ∧ d.all Char.isDigit then some (digitsVal d : ℚ) else none
  | [d, f] =>
    if (d ≠ [] ∨ f ≠ []) ∧ d.all Char.isDigit ∧ f.all Char.isDigit then
      some ((digitsVal d : ℚ) + (digitsVal f : ℚ) / 10 ^ f.length)
    else none
  | _ => none

/-- Index of the first close bracket in a character list. -/
def findClose : List Char → Option ℕ
  | [] => none
  | c :: cs => if c = ']' then some 0 else (findClose cs).map (· + 1)

/-- The startswith check of lyricSplit: the line opens with a bracket
followed by a digit 0 to 3. -/
def startsTs (l : List Char) : Bool :=
  match l with
  | '[' :: c :: _ => c == '0' || c == '1' || c == '2' || c == '3'
  | _ => false

/-- re.match of the non-greedy bracket pattern of lyricSplit against the
start of the line: the match is the shortest leading bracketed group with
a nonempty interior, ending at the first close bracket at index two or
later; the interior, the timestamp text, is returned. -/
def matchBracket : List Char → Option (List Char)
  | '[' :: d :: rest => (findClose rest).map (fun k => d :: rest.take k)
  | _ => none

/-- The non-greedy bracket substitution of lyricSplit with explicit fuel:
re.sub removes every shortest bracketed group with nonempty interior,
scanning left to right.  The fuel only drives the structural recursion and
never runs out when it starts at the length of the list. -/
def subBracketsN : ℕ → List Char → List Char
  | 0, l => l
  | _ + 1, [] => []
  | n + 1, c :: rest =>
    if c = '[' then
      match rest with
      | [] => [c]
      | d :: rest2 =>
        match findClose rest2 with
        | some k => subBracketsN n (rest2.drop (k + 1))
        | none => c :: d :: rest2
    else c :: subBracketsN n rest

/-- The bracket substitution regex.sub of lyricSplit. -/
def subBrackets (l : List Char) : List Char := subBracketsN l.length l

/-- The whitespace set of Python str.strip. -/
def isPySpace (c : Char) : Bool :=
  c == ' ' || c == '\t' || c == '\n' || c == '\r' || c == '\x0b' || c == '\x0c'

/-- Python str.strip: remove leading and trailing whitespace. -/
def pyStrip (l : List Char) : List Char :=
  ((l.dropWhile isPySpace).reverse.dropWhile isPySpace).reverse

/-- The try block of lyricSplit: split the timestamp text on the colon,
convert the first part with int and the second with float, ignoring any
further parts, and truncate (minutes times 60 plus seconds) times 1000 to
an integer.  A failed conversion or a missing second part is the caught
ValueError or IndexError, modelled as none. -/
def parseTimestamp (t : List Char) : Option ℤ :=
  match splitChar ':' t with
  | p0 :: p1 :: _ =>
    match pyInt p0, pyFloat p1 with
    | some m, some s => some (pyTrunc (((m : ℚ) * 60 + s) * 1000))
    | _, _ => none
  | _ => none

/-- The per-line body of lyricSplit: lines not opening with a bracket and
a digit 0 to 3 are ignored; otherwise the leading bracketed timestamp is
matched, every bracketed group is removed from the line and the remainder
stripped; lines with an empty remainder or an unconvertible timestamp are
skipped. -/
def parseLine (line : List Char) : Option (ℤ × List Char) :=
  if startsTs line then
    match matchBracket line with
    | none => none
    | some t =>
      let stripped := pyStrip (subBrackets line)
      if stripped = [] then none
      else
        match parseTimestamp t with
        | some ms => some (ms, stripped)
        | none => none
  else none

/-- lyricSplit from lyrics.py applied to the list of lines of the
document, as produced by str.splitlines: the parallel timeline and line
lists, in input order. -/
def lyricSplit (lines : List String) : List ℤ × List String :=
  match lines with
  | [] => ([], [])
  | l :: ls =>
    let r := lyricSplit ls
    match parseLine l.data with
    | some (ms, txt) => (ms :: r.1, String.mk txt :: r.2)
    | none => r

/-- The display selection of one iteration of the synchronization loop of
fetch_lyrics_for_track: every index n from 1 below the timeline length
whose interval contains the projected offset (in seconds, compared against
the timeline in milliseconds) emits the triple of previous, current and
next line. -/
def emittedTriples (timeline : List ℤ) (lrc : List String) (t : ℚ) :
    List (String × String × String) :=
  (List.range' 1 (timeline.length - 1)).filterMap fun n =>
    if (timeline.getD (n - 1) 0 : ℚ) ≤ t * 1000 ∧
        t * 1000 ≤ (timeline.getD n 0 : ℚ) then
      some (if 1 < n then lrc.getD (n - 2) "" else "",
            lrc.getD (n - 1) "",
            if n < lrc.length then lrc.getD n "" else "")
    else none

/-- Result of one iteration of the synchronization loop. -/
inductive IterResult
  | finished
  | display (emits : List (String × String × String))
deriving DecidableEq

/-- One iteration of the synchronization loop of fetch_lyrics_for_track at
projected offset t seconds: when the offset has reached the final timeline
entry the loop clears the display and exits, otherwise the selected
triples are emitted. -/
def displayIteration (timeline : List ℤ) (lrc : List String) (t : ℚ) :
    IterResult :=
  if (timeline.getLast?.getD 0 : ℚ) ≤ t * 1000 then IterResult.finished
  else IterResult.display (emittedTriples timeline lrc t)

/-- CHUNK_DURATION from tagging.py. -/
def CHUNK_DURATION : ℕ := 3

/-- Outcome of one chunk step of listen_for_audio: process_audio_chunk
returns its success flag and catches its own recognition errors, or the
recording or file step raises, modelled as exn. -/
inductive AttemptOutcome
  | ok (success : Bool)
  | exn
deriving DecidableEq

/-- Observable events of one run of listen_for_audio. -/
inductive TagEvent
  | listening
  | captureOn
  | attempt (i : ℕ) (success : Bool)
  | captureOff
  | handleSuccess
  | noMatchResult
  | errorLogged
  | tagEnableOff
deriving DecidableEq

/-- The chunk loop of listen_for_audio: up to the given number of chunks,
record and process chunk i; the loop breaks at the first success, and an
exception leaves the loop to the handler, outcome none. -/
def chunkLoop (f : ℕ → AttemptOutcome) : ℕ → ℕ → List TagEvent × Option Bool
  | _, 0 => ([], some false)
  | i, k + 1 =>
    match f i with
    | AttemptOutcome.exn => ([], none)
    | AttemptOutcome.ok true => ([TagEvent.attempt i true], some true)
    | AttemptOutcome.ok false =>
      let r := chunkLoop f (i + 1) k
      (TagEvent.attempt i false :: r.1, r.2)

/-- listen_for_audio from tagging.py as its trace of events: the listening
display, capture switch on, max_duration floor-divided by CHUNK_DURATION
chunk attempts stopping at the first success, capture switch off, the
result handling (success or no match, completing normally when postOk),
and the final tag enable reset.  Any exception, in the loop or in the
result handling, is caught and logged and the switch resets still run; the
caught exception never propagates, so the trace is a total function of the
inputs. -/
def listen_for_audio (max_duration : ℕ) (f : ℕ → AttemptOutcome)
    (postOk : Bool) : List TagEvent :=
  let total_chunks := max_duration / CHUNK_DURATION
  let r := chunkLoop f 0 total_chunks
  TagEvent.listening :: TagEvent.captureOn ::
    (r.1 ++
      match r.2, postOk with
      | none, _ =>
        [TagEvent.errorLogged, TagEvent.tagEnableOff, TagEvent.captureOff]
      | some true, true =>
        [TagEvent.captureOff, TagEvent.handleSuccess, TagEvent.tagEnableOff]
      | some false, true =>
        [TagEvent.captureOff, TagEvent.noMatchResult, TagEvent.tagEnableOff]
      | some _, false =>
        [TagEvent.captureOff, TagEvent.errorLogged, TagEvent.tagEnableOff,
          TagEvent.captureOff])

/-- Whether an event is a recognition attempt. -/
def isAttempt : TagEvent → Bool
  | TagEvent.attempt _ _ => true
  | _ => false

/-- Number of recognition attempts in a trace. -/
def attemptCount (evs : List TagEvent) : ℕ := (evs.filter isAttempt).length

/-- Effect of one event on the capture enable switch. -/
def captureStep (s : Bool) (e : TagEvent) : Bool :=
  match e with
  | TagEvent.captureOn => true
  | TagEvent.captureOff => false
  | _ => s

/-- State of the capture enable switch after replaying a trace, initially
off. -/
def captureState (evs : List TagEvent) : Bool := evs.foldl captureStep false

/-- The status object of an ACRCloud response; the msg field may be
absent. -/
structure PyStatus where
  msg : Option String
deriving DecidableEq

/-- One entry of the music array of an ACRCloud response; only the fields
read by handle_successful_match are kept. -/
structure PyMusic where
  title : Option String
  play_offset_ms : Option ℤ
deriving DecidableEq

/-- The metadata object of an ACRCloud response: the music key may be
absent, and when present holds a possibly empty array. -/
structure PyMetadata where
  music : Option (List PyMusic)
deriving DecidableEq

/-- A parsed ACRCloud response: the status and metadata keys may each be
absent. -/
structure PyResponse where
  status : Option PyStatus
  metadata : Option PyMetadata
deriving DecidableEq

/-- The success classification of process_audio_chunk in tagging.py: the
status key is present with msg equal to Success, the metadata key is
present, and the music key is present in the metadata. -/
def isSuccessfulMatch (r : PyResponse) : Bool :=
  match r.status, r.metadata with
  | some st, some md => st.msg == some "Success" && md.music.isSome
  | _, _ => false

/-- The first match extracted by handle_successful_match: indexing
music[0], which raises IndexError on an empty array, modelled as none. -/
def first_match (r : PyResponse) : Option PyMusic :=
  match r.metadata with
  | some md =>
    match md.music with
    | some l => l.head?
    | none => none
  | none => none

/-- Python str.startswith, via the character lists. -/
def startsWithStr (s p : String) : Bool := p.data.isPrefixOf s.data

/-- The module level state of lyrics.py used by monitor_playback. -/
structure WatcherState where
  lastMediaContentId : Option String
  activeLoop : Option Bool
deriving DecidableEq

/-- monitor_playback from lyrics.py as a state transition.  Inputs: the
two module globals, the new player state, the media content id read from
the player, and the raw title and artist attributes; cleanTrack stands for
clean_track_name as applied by get_media_player_info.  Returns the new
global state and whether fetch_lyrics_for_track was invoked, that is
whether a lyrics session start was requested. -/
def monitor_playback (cleanTrack : String → String) (st : WatcherState)
    (newState : String) (mediaContentId : String)
    (rawTitle rawArtist : String) : WatcherState × Bool :=
  if newState = "playing" ∧ ¬ startsWithStr mediaContentId "library://radio" then
    if mediaContentId ≠ "" ∧ st.lastMediaContentId ≠ some mediaContentId then
      let track := cleanTrack rawTitle
      if track ≠ "" ∧ rawArtist ≠ "" then
        ({ lastMediaContentId := some mediaContentId,
           activeLoop := some false }, true)
      else
        ({ lastMediaContentId := st.lastMediaContentId,
           activeLoop := some false }, false)
    else
      (st, false)
  else
    ({ lastMediaContentId :=
        if newState = "playing" ∧ mediaContentId ≠ "" then some mediaContentId
        else st.lastMediaContentId,
       activeLoop := none }, false)

/-! Helper lemmas.  The kernel evaluation of concrete rational arithmetic
needs the arithmetic of Rat restored to its default reducibility. -/

attribute [local semireducible] Rat.mul Rat.add Rat.sub Rat.inv

theorem pyFloor_intCast (n : ℤ) : pyFloor (n : ℚ) = n := by
  simp [pyFloor, Rat.num_intCast, Rat.den_intCast, Int.fdiv_one]

theorem pyRound_intCast (n : ℤ) : pyRound (n : ℚ) = n := by
  unfold pyRound
  rw [pyFloor_intCast]
  have h : (n : ℚ) - n = 0 := by ring
  rw [h]
  norm_num

theorem round2_intCast (n : ℤ) : round2 (n : ℚ) = (n : ℚ) := by
  unfold round2
  have h : (n : ℚ) * 100 = ((n * 100 : ℤ) : ℚ) := by push_cast; ring
  rw [h, pyRound_intCast]
  push_cast
  ring

/-! Claim theorems. -/

/-- C6: the playback-clock projection returns round(pos + elapsed, 2) when
both inputs are present, 0 when either is absent, and in particular
project(30, T, T+5) = 35.0. -/
theorem claim6_playback_projection :
    (∀ fromiso upd now, calculate_media_timecode fromiso none upd now = 0) ∧
    (∀ fromiso p now, calculate_media_timecode fromiso (some p) none now = 0) ∧
    (∀ fromiso p t now,
      calculate_media_timecode fromiso (some p) (some (UpdatedAt.dt t)) now =
        round2 (p + (now - t))) ∧
    (∀ fromiso t,
      calculate_media_timecode fromiso (some 30) (some (UpdatedAt.dt t))
        (t + 5) = 35) := by
  refine ⟨fun _ _ _ => rfl, fun _ _ _ => rfl, fun _ _ _ _ => rfl,
    fun fromiso t => ?_⟩
  show round2 (30 + (t + 5 - t)) = 35
  have h : (30 : ℚ) + (t + 5 - t) = ((35 : ℤ) : ℚ) := by push_cast; ring
  rw [h, round2_intCast]
  norm_num

/-- C10: an observed_at string that fromisoformat rejects makes the
projection return 0 (after logging) instead of raising, even when the
position is present. -/
theorem claim10_bad_iso_returns_zero
    (fromiso : String → Option ℚ) (p : ℚ) (s : String) (now : ℚ)
    (h : fromiso s = none) :
    calculate_media_timecode fromiso (some p) (some (UpdatedAt.str s)) now
      = 0 := by
  simp [calculate_media_timecode, h]

/-- Witness for C10 at a concrete unparsable string. -/
theorem claim10_witness :
    (fun _ : String => (none : Option ℚ)) "not a timestamp" = none ∧
    calculate_media_timecode (fun _ => none) (some 30)
      (some (UpdatedAt.str "not a timestamp")) 0 = 0 :=
  ⟨rfl, claim10_bad_iso_returns_zero (fun _ => none) 30 "not a timestamp" 0 rfl⟩

/-- C1 counterexample: at the recognized offset 45000 ms with the handoff
enabled, the handoff emits only the creation of a discarded coroutine
(with pos 45.0 and updated_at = now minus FINETUNE_SYNC) followed by the
TypeError from awaiting None, and it never enters a session loop: no
lyrics session is started at all, so no session with initial projected
offset 43.0 (or any other) exists. -/
theorem claim1_counterexample :
    tagging_handoff true "Song X" "Artist Y" 45000 100 =
      ([HandoffEvent.coroutineCreated 45 98, HandoffEvent.typeErrorRaised],
        false) ∧
    HandoffEvent.sessionLoopEntered ∉
      (tagging_handoff true "Song X" "Artist Y" 45000 100).1 := by
  constructor <;> decide

/-- C1 amended: the handoff never starts a lyrics session.  On every
input the session loop is never entered; with lyrics handoff enabled and
non-empty title and artist, the synchronous trigger_lyrics_lookup only
creates a fetch_lyrics_for_track coroutine (carrying
pos = play_offset_ms/1000 and updated_at = now minus FINETUNE_SYNC) that
is discarded unrun, and awaiting its None return raises TypeError, caught
upstream by listen_for_audio. -/
theorem claim1_handoff_no_session :
    (∀ (il : Bool) (title artist : String) (ms : ℤ) (now : ℚ),
      HandoffEvent.sessionLoopEntered ∉
        (tagging_handoff il title artist ms now).1) ∧
    (∀ (title artist : String) (ms : ℤ) (now : ℚ),
      title ≠ "" → artist ≠ "" →
      tagging_handoff true title artist ms now =
        ([HandoffEvent.coroutineCreated ((ms : ℚ) / 1000)
            (now - FINETUNE_SYNC), HandoffEvent.typeErrorRaised],
          false)) := by
  constructor
  · intro il title artist ms now
    unfold tagging_handoff trigger_lyrics_lookup
    split_ifs <;> simp
  · intro title artist ms now htitle hartist
    unfold tagging_handoff trigger_lyrics_lookup
    rw [if_pos (show (ENABLE_LYRICS_LOOKUP && true) = true from rfl),
      if_pos ⟨htitle, hartist⟩, if_neg (by simp [htitle, hartist])]
    rfl

/-- Witness for C1 at concrete inputs. -/
theorem claim1_witness :
    tagging_handoff true "T" "A" 60000 9 =
      ([HandoffEvent.coroutineCreated (((60000 : ℤ) : ℚ) / 1000)
          (9 - FINETUNE_SYNC), HandoffEvent.typeErrorRaised], false) :=
  claim1_handoff_no_session.2 "T" "A" 60000 9 (by decide) (by decide)

/-- C3 counterexample: a response whose status msg is Success and whose
metadata carries an empty music array is classified as a successful match
by process_audio_chunk, although it contains no match at all and the
subsequent extraction of music[0] fails. -/
theorem claim3_counterexample :
    isSuccessfulMatch
      { status := some { msg := some "Success" },
        metadata := some { music := some [] } } = true ∧
    first_match
      { status := some { msg := some "Success" },
        metadata := some { music := some [] } } = none := by
  constructor <;> rfl

/-- C3 amended: an attempt is classified Success exactly when the status
key is present with msg Success, the metadata key is present, and the
music key is present in the metadata; the music array may be empty, in
which case the attempt is still classified successful even though
handle_successful_match then finds no first match. -/
theorem claim3_success_criterion :
    (∀ r : PyResponse, isSuccessfulMatch r = true ↔
      ((∃ st, r.status = some st ∧ st.msg = some "Success") ∧
        ∃ md, r.metadata = some md ∧ ∃ l, md.music = some l)) ∧
    (∀ st md, md.music = some [] →
      (isSuccessfulMatch { status := some st, metadata := some md } = true ↔
        st.msg = some "Success") ∧
      first_match { status := some st, metadata := some md } = none) := by
  constructor
  · rintro ⟨status, metadata⟩
    cases status with
    | none => simp [isSuccessfulMatch]
    | some st =>
      cases metadata with
      | none => simp [isSuccessfulMatch]
      | some md =>
        simp [isSuccessfulMatch, Option.isSome_iff_exists]
  · intro st md h
    constructor
    · simp [isSuccessfulMatch, h]
    · simp [first_match, h]

/-- Witness for C3 at a concrete empty-music response. -/
theorem claim3_witness :
    (isSuccessfulMatch
        { status := some { msg := some "Success" },
          metadata := some { music := some ([] : List PyMusic) } } = true ↔
      ({ msg := some "Success" } : PyStatus).msg = some "Success") ∧
    first_match
      { status := some { msg := some "Success" },
        metadata := some { music := some ([] : List PyMusic) } } = none :=
  claim3_success_criterion.2 { msg := some "Success" } { music := some [] }
    rfl

/-- C7: with timeline [0, 1000, 2000] and lines a, b, c, the iteration at
projected offset 500 ms emits the triple (empty, a, b), and the iteration
at 1500 ms emits (a, b, c). -/
theorem claim7_display_triples :
    displayIteration [0, 1000, 2000] ["a", "b", "c"] (1 / 2) =
      IterResult.display [("", "a", "b")] ∧
    displayIteration [0, 1000, 2000] ["a", "b", "c"] (3 / 2) =
      IterResult.display [("a", "b", "c")] := by
  constructor <;> decide

/-- Every event recorded by the chunk loop is an attempt. -/
theorem chunkLoop_attempts_all (f : ℕ → AttemptOutcome) :
    ∀ (k i : ℕ), ∀ e ∈ (chunkLoop f i k).1, isAttempt e = true := by
  intro k
  induction k with
  | zero =>
    intro i e he
    simp [chunkLoop] at he
  | succ k ih =>
    intro i e he
    rcases hf : f i with b | _
    · cases b
      · simp only [chunkLoop, hf, List.mem_cons] at he
        rcases he with he | he
        · rw [he]; rfl
        · exact ih (i + 1) e he
      · simp only [chunkLoop, hf, List.mem_singleton] at he
        rw [he]; rfl
    · simp [chunkLoop, hf] at he

/-- The chunk loop performs at most its budget of attempts. -/
theorem chunkLoop_length_le (f : ℕ → AttemptOutcome) :
    ∀ (k i : ℕ), (chunkLoop f i k).1.length ≤ k := by
  intro k
  induction k with
  | zero => intro i; simp [chunkLoop]
  | succ k ih =>
    intro i
    rcases hf : f i with b | _
    · cases b <;> simp [chunkLoop, hf]
      · exact ih (i + 1)
    · simp [chunkLoop, hf]

/-- With every attempt failing, the chunk loop exhausts its budget. -/
theorem chunkLoop_all_false (f : ℕ → AttemptOutcome)
    (hf : ∀ j, f j = AttemptOutcome.ok false) :
    ∀ (k i : ℕ), (chunkLoop f i k).1.length = k ∧
      (chunkLoop f i k).2 = some false := by
  intro k
  induction k with
  | zero => intro i; simp [chunkLoop]
  | succ k ih =>
    intro i
    simp only [chunkLoop, hf i]
    simpa using ih (i + 1)

/-- When the first success is attempt j within budget, the chunk loop
stops after j + 1 attempts. -/
theorem chunkLoop_first_success (f : ℕ → AttemptOutcome) :
    ∀ (j k i : ℕ), j < k → f (i + j) = AttemptOutcome.ok true →
      (∀ j', j' < j → f (i + j') = AttemptOutcome.ok false) →
      (chunkLoop f i k).1.length = j + 1 := by
  intro j
  induction j with
  | zero =>
    intro k i hk hs _
    cases k with
    | zero => omega
    | succ k =>
      have hi : f i = AttemptOutcome.ok true := by simpa using hs
      simp [chunkLoop, hi]
  | succ j ih =>
    intro k i hk hs hprev
    cases k with
    | zero => omega
    | succ k =>
      have h0 : f i = AttemptOutcome.ok false := by
        simpa using hprev 0 (by omega)
      have hrec := ih k (i + 1) (by omega)
        (by rw [show i + 1 + j = i + (j + 1) by omega]; exact hs)
        (fun j' hj' => by
          rw [show i + 1 + j' = i + (j' + 1) by omega]
          exact hprev (j' + 1) (by omega))
      simp only [chunkLoop, h0, List.length_cons]
      omega

/-- The attempts of a full run are exactly the attempts of its chunk
loop. -/
theorem listen_attemptCount (md : ℕ) (f : ℕ → AttemptOutcome)
    (postOk : Bool) :
    attemptCount (listen_for_audio md f postOk) =
      (chunkLoop f 0 (md / CHUNK_DURATION)).1.length := by
  have hall := chunkLoop_attempts_all f (md / CHUNK_DURATION) 0
  simp only [listen_for_audio, attemptCount]
  rcases hc : chunkLoop f 0 (md / CHUNK_DURATION) with ⟨evs, res⟩
  rw [hc] at hall
  have hevs : evs.filter isAttempt = evs := List.filter_eq_self.mpr hall
  rcases res with _ | b
  · simp [List.filter_append, hevs, isAttempt, List.filter]
  · cases b <;> cases postOk <;>
      simp [List.filter_append, hevs, isAttempt, List.filter]

/-- Replaying attempt events does not change the capture switch. -/
theorem foldl_captureStep_of_attempts :
    ∀ (evs : List TagEvent), (∀ e ∈ evs, isAttempt e = true) →
      ∀ s, evs.foldl captureStep s = s := by
  intro evs
  induction evs with
  | nil => intro _ s; rfl
  | cons e evs ih =>
    intro h s
    have he : isAttempt e = true := h e (by simp)
    have hstep : captureStep s e = s := by
      cases e <;> first | rfl | simp [isAttempt] at he
    rw [List.foldl_cons, hstep]
    exact ih (fun x hx => h x (by simp [hx])) s

/-- C2 amended: with chunk duration fixed at CHUNK_DURATION = 3, a run
with no successful attempt performs exactly max_duration / CHUNK_DURATION
(floor division) recognition attempts; a first success at attempt j stops
the run after j + 1 attempts; and with max_duration = 12 at most 4
attempts are ever performed. -/
theorem claim2_attempt_budget :
    (∀ (md : ℕ) (f : ℕ → AttemptOutcome) (postOk : Bool),
      (∀ i, f i = AttemptOutcome.ok false) →
      attemptCount (listen_for_audio md f postOk) = md / CHUNK_DURATION) ∧
    (∀ (md : ℕ) (f : ℕ → AttemptOutcome) (postOk : Bool) (j : ℕ),
      j < md / CHUNK_DURATION → f j = AttemptOutcome.ok true →
      (∀ i, i < j → f i = AttemptOutcome.ok false) →
      attemptCount (listen_for_audio md f postOk) = j + 1) ∧
    (∀ (f : ℕ → AttemptOutcome) (postOk : Bool),
      attemptCount (listen_for_audio 12 f postOk) ≤ 4) := by
  refine ⟨?_, ?_, ?_⟩
  · intro md f postOk hf
    rw [listen_attemptCount,
      (chunkLoop_all_false f hf (md / CHUNK_DURATION) 0).1]
  · intro md f postOk j hj hs hprev
    rw [listen_attemptCount]
    exact chunkLoop_first_success f j (md / CHUNK_DURATION) 0 hj
      (by simpa using hs) (fun j' h => by simpa using hprev j' h)
  · intro f postOk
    rw [listen_attemptCount]
    have h := chunkLoop_length_le f (12 / CHUNK_DURATION) 0
    have h4 : 12 / CHUNK_DURATION = 4 := rfl
    rw [h4] at h
    exact h

/-- C2 counterexample: with max_duration = 10 and every attempt failing,
the run performs 10 / 3 = 3 attempts, not ceil(10/3) = 4: the source uses
floor division for the chunk count. -/
theorem claim2_counterexample :
    attemptCount (listen_for_audio 10 (fun _ => AttemptOutcome.ok false)
      true) = 3 ∧
    (10 + 3 - 1) / 3 = 4 ∧ (3 : ℕ) ≠ 4 := by
  refine ⟨by decide, by norm_num, by norm_num⟩

/-- Witness for C2 at max_duration = 12 with all attempts failing. -/
theorem claim2_witness :
    attemptCount (listen_for_audio 12 (fun _ => AttemptOutcome.ok false)
      true) = 12 / CHUNK_DURATION :=
  claim2_attempt_budget.1 12 (fun _ => AttemptOutcome.ok false) true
    (fun _ => rfl)

/-- C8: every run of listen_for_audio leaves the capture enable switch
off, on the success, no-match and unexpected-error paths alike; the error
is logged and, the trace being a total function, never propagated. -/
theorem claim8_capture_reset :
    ∀ (md : ℕ) (f : ℕ → AttemptOutcome) (postOk : Bool),
      captureState (listen_for_audio md f postOk) = false ∧
      TagEvent.captureOff ∈ listen_for_audio md f postOk ∧
      ((chunkLoop f 0 (md / CHUNK_DURATION)).2 = none →
        TagEvent.errorLogged ∈ listen_for_audio md f postOk) := by
  intro md f postOk
  have hall := chunkLoop_attempts_all f (md / CHUNK_DURATION) 0
  rcases hc : chunkLoop f 0 (md / CHUNK_DURATION) with ⟨evs, res⟩
  rw [hc] at hall
  replace hall : ∀ e ∈ evs, isAttempt e = true := hall
  have hfold := foldl_captureStep_of_attempts evs hall
  rcases res with _ | b
  · have hrun : listen_for_audio md f postOk =
        TagEvent.listening :: TagEvent.captureOn :: (evs ++
          [TagEvent.errorLogged, TagEvent.tagEnableOff,
            TagEvent.captureOff]) := by
      simp only [listen_for_audio]
      rw [hc]
    refine ⟨?_, by rw [hrun]; simp, fun _ => by rw [hrun]; simp⟩
    rw [hrun]
    unfold captureState
    rw [List.foldl_cons, List.foldl_cons, List.foldl_append, hfold]
    rfl
  · have hrun : listen_for_audio md f postOk =
        TagEvent.listening :: TagEvent.captureOn :: (evs ++
          (match (some b : Option Bool), postOk with
            | none, _ =>
              [TagEvent.errorLogged, TagEvent.tagEnableOff,
                TagEvent.captureOff]
            | some true, true =>
              [TagEvent.captureOff, TagEvent.handleSuccess,
                TagEvent.tagEnableOff]
            | some false, true =>
              [TagEvent.captureOff, TagEvent.noMatchResult,
                TagEvent.tagEnableOff]
            | some _, false =>
              [TagEvent.captureOff, TagEvent.errorLogged,
                TagEvent.tagEnableOff, TagEvent.captureOff])) := by
      simp only [listen_for_audio]
      rw [hc]
    refine ⟨?_, ?_, fun h => by simp at h⟩
    · rw [hrun]
      unfold captureState
      rw [List.foldl_cons, List.foldl_cons, List.foldl_append, hfold]
      cases b <;> cases postOk <;> rfl
    · rw [hrun]
      cases b <;> cases postOk <;> simp

/-- Witness for C8 on a run whose first chunk step raises. -/
theorem claim8_witness :
    captureState (listen_for_audio 3 (fun _ => AttemptOutcome.exn) true)
      = false ∧
    TagEvent.errorLogged ∈
      listen_for_audio 3 (fun _ => AttemptOutcome.exn) true := by
  have h := claim8_capture_reset 3 (fun _ => AttemptOutcome.exn) true
  exact ⟨h.1, h.2.2 (by decide)⟩

/-- C9 counterexample: a transition to the paused state with a
radio-classified content id starts no session, but the radio id is not
recorded as the last-processed id there, since the source records it only
on transitions to playing. -/
theorem claim9_counterexample :
    (monitor_playback id { lastMediaContentId := none, activeLoop := none }
      "paused" "library://radio/ch1" "Title" "Artist").2 = false ∧
    (monitor_playback id { lastMediaContentId := none, activeLoop := none }
      "paused" "library://radio/ch1" "Title" "Artist").1.lastMediaContentId
      ≠ some "library://radio/ch1" ∧
    startsWithStr "library://radio/ch1" "library://radio" = true := by
  refine ⟨?_, ?_, ?_⟩ <;> decide

/-- C9 amended: a playback-state transition whose content id is
radio-classified never starts a lyrics session, regardless of the title
and artist metadata; when the new state is playing, the radio content id
is recorded as the last-processed id. -/
theorem claim9_radio_suppression :
    ∀ (cleanTrack : String → String) (st : WatcherState)
      (newState mediaContentId rawTitle rawArtist : String),
      startsWithStr mediaContentId "library://radio" = true →
      (monitor_playback cleanTrack st newState mediaContentId rawTitle
        rawArtist).2 = false ∧
      (newState = "playing" →
        (monitor_playback cleanTrack st newState mediaContentId rawTitle
          rawArtist).1.lastMediaContentId = some mediaContentId) := by
  intro cleanTrack st newState mediaContentId rawTitle rawArtist hradio
  have hne : mediaContentId ≠ "" := by
    intro h
    rw [h] at hradio
    exact absurd hradio (by decide)
  have hcond : ¬ (newState = "playing" ∧
      ¬ startsWithStr mediaContentId "library://radio") := by
    rintro ⟨-, hn⟩
    exact hn hradio
  unfold monitor_playback
  rw [if_neg hcond]
  refine ⟨rfl, fun hp => ?_⟩
  show (if newState = "playing" ∧ mediaContentId ≠ "" then some mediaContentId
    else st.lastMediaContentId) = some mediaContentId
  rw [if_pos ⟨hp, hne⟩]

/-- Witness for C9 at a concrete playing radio transition. -/
theorem claim9_witness :
    (monitor_playback id
      { lastMediaContentId := none, activeLoop := some true } "playing"
      "library://radio/x" "t" "a").2 = false ∧
    (monitor_playback id
      { lastMediaContentId := none, activeLoop := some true } "playing"
      "library://radio/x" "t" "a").1.lastMediaContentId =
      some "library://radio/x" := by
  have h := claim9_radio_suppression id
    { lastMediaContentId := none, activeLoop := some true } "playing"
    "library://radio/x" "t" "a" (by decide)
  exact ⟨h.1, h.2 rfl⟩

/-- The timeline of lyricSplit is the per-line parse in input order. -/
theorem lyricSplit_fst :
    ∀ lines : List String, (lyricSplit lines).1 =
      ((lines.filterMap fun l => parseLine l.data).map Prod.fst) := by
  intro lines
  induction lines with
  | nil => rfl
  | cons l ls ih =>
    rcases h : parseLine l.data with _ | ⟨ms, txt⟩ <;>
      simp [lyricSplit, List.filterMap_cons, h, ih]

/-- C5 amended: the timeline lists the parsed timestamps in input order,
so it is non-decreasing exactly when the parsed input timestamps are, and
the parser does not sort; a line whose timestamp digits are unparsable is
dropped (with a warning) without affecting the rest and without raising,
the parse being a total function. -/
theorem claim5_parser_order :
    (∀ lines : List String, (lyricSplit lines).1 =
      ((lines.filterMap fun l => parseLine l.data).map Prod.fst)) ∧
    (∀ (pre suf : List String) (l : String), parseLine l.data = none →
      lyricSplit (pre ++ l :: suf) = lyricSplit (pre ++ suf)) ∧
    (∀ lines : List String,
      List.Chain' (· ≤ ·)
        ((lines.filterMap fun l => parseLine l.data).map Prod.fst) →
      List.Chain' (· ≤ ·) (lyricSplit lines).1) := by
  refine ⟨lyricSplit_fst, ?_, ?_⟩
  · intro pre suf l h
    induction pre with
    | nil => simp [lyricSplit, h]
    | cons p ps ih =>
      show lyricSplit (p :: (ps ++ l :: suf)) = lyricSplit (p :: (ps ++ suf))
      rcases hp : parseLine p.data with _ | ⟨ms, txt⟩ <;>
        simp [lyricSplit, hp, ih]
  · intro lines hch
    rw [lyricSplit_fst]
    exact hch

/-- C5 counterexample: the parser does not sort, so lyrics text with a
later timestamp first yields a decreasing timeline. -/
theorem claim5_counterexample :
    (lyricSplit ["[02:00.00]b", "[01:00.00]a"]).1 = [120000, 60000] ∧
    ¬ List.Chain' (· ≤ ·) (lyricSplit ["[02:00.00]b", "[01:00.00]a"]).1 := by
  have h1 : (lyricSplit ["[02:00.00]b", "[01:00.00]a"]).1 =
      [120000, 60000] := by decide
  refine ⟨h1, fun hch => ?_⟩
  rw [h1, List.chain'_cons] at hch
  exact absurd hch.1 (by norm_num)

/-- Witness for C5: a line with unparsable timestamp digits is dropped. -/
theorem claim5_witness :
    lyricSplit (["[01:00.00]a"] ++ "[0x:15.35]bad" :: ["[02:00.00]b"]) =
      lyricSplit (["[01:00.00]a"] ++ ["[02:00.00]b"]) :=
  claim5_parser_order.2.1 ["[01:00.00]a"] ["[02:00.00]b"] "[0x:15.35]bad"
    (by decide)

/-- A digit is not a separator or bracket character. -/
theorem isDigit_ne (c : Char) (h : c.isDigit = true) :
    c ≠ ':' ∧ c ≠ '.' ∧ c ≠ ']' ∧ c ≠ '[' := by
  refine ⟨?_, ?_, ?_, ?_⟩ <;> rintro rfl <;> exact absurd h (by decide)

end TagLyrics
